import Mathlib

/-!
Shallow embedding of the `ts-leaky-bucket` LeakyBucket class
(src/src/leaky-bucket/LeakyBucket.ts; the variant src/unnamed/part_001 is
identical up to renamings noted on the individual definitions).

JS `number` values (costs, capacities, timestamps in milliseconds) are
modelled as rationals `Rat`.  Promise callbacks (`resolve`/`reject` of queue
items, and the empty-signal promise) are modelled by giving each queue item a
numeric identity and each empty-signal promise a generation number, and by
having every operation return the list of `BucketEvent`s it emits (a
`granted`/`rejected` event stands for calling the item's `resolve`/`reject`
callback; `emptyFired g` stands for resolving the empty-signal promise of
generation `g`).  `Date.now()` is modelled by an explicit `now` argument on
every operation that reads the clock.
-/

/-- QueueItem mirrors the `LeakyBucketItem` interface: `cost`, `isPause`, and
the resolve/reject callback pair represented by the numeric identity `id`. -/
structure QueueItem where
  id : Nat
  cost : Rat
  isPause : Bool
deriving Repr, DecidableEq

/-- BucketEvent records an observable callback invocation: `granted i` models
`item.resolve()` on the item with identity `i`, `rejected i` models
`item.reject(overflowError)`, and `emptyFired g` models resolving the
empty-signal promise of generation `g`. -/
inductive BucketEvent where
  | granted (id : Nat)
  | rejected (id : Nat)
  | emptyFired (gen : Nat)
deriving Repr, DecidableEq

/-- Bucket is the full mutable state of a `LeakyBucket` instance.
`capacity` is `options.capacity`; `maxCapacity` and `refillRate`
(`refillRatePerSecond` in src/unnamed/part_001) are the derived fields
computed by the constructor; `queue`, `totalCost`, `currentCapacity`,
`lastRefill` and `timer` are the private mutable fields.  The timer slot is a
single `Option` holding the armed delay in milliseconds (`none` = no timer
outstanding), mirroring the single `timer?: NodeJS.Timeout` field.
`emptyResolver` is true when `emptyPromiseResolver` is set, and `emptyGen`
numbers the successive empty-signal promises.  `nextId` supplies fresh
identities for queue items. -/
structure Bucket where
  capacity : Rat
  maxCapacity : Rat
  refillRate : Rat
  queue : List QueueItem
  totalCost : Rat
  currentCapacity : Rat
  lastRefill : Rat
  timer : Option Rat
  emptyGen : Nat
  emptyResolver : Bool
  nextId : Nat
deriving Repr, DecidableEq

/-- Constructor state: `currentCapacity = capacity`, `lastRefill = 0`, empty
queue, no timer, and `maybeCreateEmptyPromiseResolver()` already run (the
constructor calls it), so the generation-1 empty promise exists.  The derived
values `maxCapacity` and `refillRate` are passed in, as computed by
`calcMaxCapacityAndRefillRate`. -/
def mkBucket (capacity maxCapacity refillRate : Rat) : Bucket :=
  { capacity := capacity
    maxCapacity := maxCapacity
    refillRate := refillRate
    queue := []
    totalCost := 0
    currentCapacity := capacity
    lastRefill := 0
    timer := none
    emptyGen := 1
    emptyResolver := true
    nextId := 0 }

/-- Modelled from the spec: the released constructor (present in this
repository only through its tests, src/src/leaky-bucket/LeakyBucket.test.ts)
takes `capacity`, `intervalMillis` and `additionalTimeoutMillis` (default 0)
and derives `refillRatePerSecond = capacity / intervalMillis * 1000` and
`maxQueueableCapacity = capacity * (intervalMillis + additionalTimeoutMillis)
/ intervalMillis`.  The src/ variants take `timeout`/`timeoutMillis` instead
of `additionalTimeoutMillis`, so this derivation step is modelled from the
spec's words.  Returns `(maxCapacity, refillRatePerSecond)`. -/
def calcMaxCapacityAndRefillRate (capacity intervalMillis additionalTimeoutMillis : Rat) :
    Rat × Rat :=
  (capacity * (intervalMillis + additionalTimeoutMillis) / intervalMillis,
   capacity / intervalMillis * 1000)

/-- Refill mirrors `refill()` (LeakyBucket.ts lines 266-289): when below
capacity, add `(now - lastRefill) / 1000 * refillRate`; on reaching capacity
clamp and reset `lastRefill` to the 0 sentinel, otherwise set `lastRefill`
to `now`. -/
def refill (s : Bucket) (now : Rat) : Bucket :=
  if s.currentCapacity < s.capacity then
    let refillAmount := (now - s.lastRefill) / 1000 * s.refillRate
    let cc := s.currentCapacity + refillAmount
    if s.capacity ≤ cc then
      { s with currentCapacity := s.capacity, lastRefill := 0 }
    else
      { s with currentCapacity := cc, lastRefill := now }
  else s

/-- Pay mirrors `pay(cost)` (LeakyBucket.ts lines 207-223): subtract `cost`
from both `currentCapacity` and `totalCost`.  The source's final branch
`if (this.lastRefill === null) this.lastRefill = Date.now()` is statically
dead: `lastRefill` is declared `number` (initialised to 0 and only ever
assigned numbers), so the strict comparison with `null` is always false and
`lastRefill` is never touched; the branch therefore contributes nothing to
the model. -/
def pay (s : Bucket) (cost : Rat) : Bucket :=
  { s with currentCapacity := s.currentCapacity - cost
           totalCost := s.totalCost - cost }

/-- StopTimer mirrors `stopTimer()`: clears the timer slot. -/
def stopTimer (s : Bucket) : Bucket :=
  { s with timer := none }

/-- Clearing mirrors the private `clear()`: resets `queue` to `[]` and
touches nothing else (in particular `totalCost` is left as is). -/
def clearQueue (s : Bucket) : Bucket :=
  { s with queue := [] }

/-- Teardown mirrors `stopTimerAndClearQueue()`: `stopTimer` then `clear`. -/
def stopTimerAndClearQueue (s : Bucket) : Bucket :=
  clearQueue (stopTimer s)

/-- Drain mirrors the private `drain()`: capacity to 0, `lastRefill` to now. -/
def drain (s : Bucket) (now : Rat) : Bucket :=
  { s with currentCapacity := 0, lastRefill := now }

/-- GetCurrentMaxCapacity mirrors `getCurrentMaxCapacity()` (LeakyBucket.ts
lines 295-298): runs `refill()` first, then returns
`maxCapacity - (capacity - currentCapacity)` together with the refilled
state. -/
def getCurrentMaxCapacity (s : Bucket) (now : Rat) : Rat × Bucket :=
  let s1 := refill s now
  (s1.maxCapacity - (s1.capacity - s1.currentCapacity), s1)

/-- ShiftQueue mirrors the private `shiftQueue()` (LeakyBucket.ts lines
149-155): drop the first queue item; if the queue is then empty and the
empty-promise resolver exists, invoke it (the resolver clears
`emptyPromiseResolver`/`emptyPromise` and resolves the promise, modelled by
the `emptyFired` event carrying the current generation). -/
def shiftQueue (s : Bucket) : Bucket × List BucketEvent :=
  let q := s.queue.tail
  if q.isEmpty && s.emptyResolver then
    ({ s with queue := q, emptyResolver := false }, [BucketEvent.emptyFired s.emptyGen])
  else
    ({ s with queue := q }, [])

/-- MaybeCreateEmptyPromiseResolver mirrors the private method of the same
name (LeakyBucket.ts lines 157-167): if no resolver exists, create a fresh
promise/resolver pair (a new generation). -/
def maybeCreateEmptyPromiseResolver (s : Bucket) : Bucket :=
  if s.emptyResolver then s
  else { s with emptyResolver := true, emptyGen := s.emptyGen + 1 }

/-- AwaitEmpty mirrors `awaitEmpty()` (LeakyBucket.ts lines 173-184): ensure
the resolver exists, fire it immediately when the queue is already empty, and
return the current empty promise (its generation is returned as the third
component; the caller's wait on that promise completes when an `emptyFired`
event with that generation has been emitted). -/
def awaitEmpty (s : Bucket) : Bucket × List BucketEvent × Nat :=
  let s1 := maybeCreateEmptyPromiseResolver s
  if s1.queue.isEmpty && s1.emptyResolver then
    ({ s1 with emptyResolver := false }, [BucketEvent.emptyFired s1.emptyGen], s1.emptyGen)
  else
    (s1, [], s1.emptyGen)

/-- GetFirstItem mirrors the private `getFirstItem()`: head of the queue or
`null`. -/
def getFirstItem (s : Bucket) : Option QueueItem :=
  s.queue.head?

/-- CleanSplit is the `findIndex`/`splice` core of `cleanQueue()`: walk the
queue keeping a running cost accumulator; at the first item whose addition
makes the accumulator exceed `maxCap`, cut the list there.  Returns
`(kept prefix, spliced-off suffix)`; when no item overflows the suffix is
empty (the `index === -1` no-op case of the source). -/
def cleanSplit : List QueueItem → Rat → Rat → List QueueItem × List QueueItem
  | [], _, _ => ([], [])
  | it :: rest, acc, maxCap =>
    if maxCap < acc + it.cost then ([], it :: rest)
    else
      let p := cleanSplit rest (acc + it.cost) maxCap
      (it :: p.1, p.2)

/-- Sum of the `cost` fields of a list of queue items. -/
def sumCosts (l : List QueueItem) : Rat :=
  (l.map QueueItem.cost).sum

/-- CleanQueue mirrors the private `cleanQueue()` (LeakyBucket.ts lines
304-329): compute the current max capacity (running `refill` inside
`getCurrentMaxCapacity`), cut the queue at the first item whose accumulated
cost exceeds it, and for each spliced-off item that is not a pause, reject it
and subtract its cost from `totalCost`.  Note that `queue.splice(index)`
removes every item from the cut position onward from the queue — including
pause items, which are merely skipped by the `forEach` reject/subtract
body. -/
def cleanQueue (s : Bucket) (now : Rat) : Bucket × List BucketEvent :=
  let m := getCurrentMaxCapacity s now
  let p := cleanSplit m.2.queue 0 m.1
  let rejectedItems := p.2.filter (fun it => !it.isPause)
  ({ m.2 with queue := p.1, totalCost := m.2.totalCost - sumCosts rejectedItems },
   rejectedItems.map (fun it => BucketEvent.rejected it.id))

theorem refill_queue (s : Bucket) (now : Rat) : (refill s now).queue = s.queue := by
  unfold refill
  split
  · dsimp only
    split <;> rfl
  · rfl

theorem refill_timer (s : Bucket) (now : Rat) : (refill s now).timer = s.timer := by
  unfold refill
  split
  · dsimp only
    split <;> rfl
  · rfl

theorem refill_totalCost (s : Bucket) (now : Rat) :
    (refill s now).totalCost = s.totalCost := by
  unfold refill
  split
  · dsimp only
    split <;> rfl
  · rfl

theorem refill_nextId (s : Bucket) (now : Rat) : (refill s now).nextId = s.nextId := by
  unfold refill
  split
  · dsimp only
    split <;> rfl
  · rfl

theorem pay_queue (s : Bucket) (c : Rat) : (pay s c).queue = s.queue := rfl

theorem shiftQueue_fst_queue (s : Bucket) : (shiftQueue s).1.queue = s.queue.tail := by
  unfold shiftQueue
  dsimp only
  split <;> rfl

/-- StartTimerFuel is the body of `startTimer()` (LeakyBucket.ts lines
112-143), made structurally recursive on a fuel argument: each recursive call
of the source follows a `shiftQueue()`, so the recursion depth is bounded by
the queue length and the wrapper `startTimer` passes `queue.length + 1` fuel,
making the fuel-exhausted branch unreachable.  The grant guard mirrors the
source condition `item?.cost && this.currentCapacity >= item.cost`: under JS
truthiness a zero cost fails the first conjunct, so a zero-cost item is never
granted.  The else branch arms the timer with
`(item?.cost || 0) + currentCapacity * -1) / refillRate * 1000`
milliseconds. -/
def startTimerFuel : Nat → Bucket → Rat → Bucket × List BucketEvent
  | 0, s, _ => (s, [])
  | fuel + 1, s, now =>
    if s.timer = none ∧ 0 < s.queue.length then
      let s1 := refill s now
      match getFirstItem s with
      | some item =>
        if item.cost ≠ 0 ∧ item.cost ≤ s1.currentCapacity then
          let r := shiftQueue s1
          let s2 := pay r.1 item.cost
          let r2 := startTimerFuel fuel s2 now
          (r2.1, BucketEvent.granted item.id :: (r.2 ++ r2.2))
        else
          let requiredDelta := item.cost + s1.currentCapacity * (-1)
          let timeToDelta := requiredDelta / s1.refillRate * 1000
          ({ s1 with timer := some timeToDelta }, [])
      | none =>
        let requiredDelta := 0 + s1.currentCapacity * (-1)
        let timeToDelta := requiredDelta / s1.refillRate * 1000
        ({ s1 with timer := some timeToDelta }, [])
    else (s, [])

/-- StartTimer mirrors `startTimer()`: see `startTimerFuel` for the body. -/
def startTimer (s : Bucket) (now : Rat) : Bucket × List BucketEvent :=
  startTimerFuel (s.queue.length + 1) s now

/-- ThrottleOutcome: result of a `throttle` call — the overflow rejection
(the `async` function throwing, i.e. a rejected promise) or the identity of
the newly queued item whose promise was returned. -/
inductive ThrottleOutcome where
  | overflow
  | queued (id : Nat)
deriving Repr, DecidableEq

/-- ThrottleAdmit is the admission stage of `throttle(cost, append, isPause)`
(LeakyBucket.ts lines 72-103, i.e. everything before the `startTimer()`
trigger): compute `getCurrentMaxCapacity()` (which refills), throw Overflow
when `append && totalCost + cost > maxCurrentCapacity`, otherwise add `cost`
to `totalCost` and push the new item at the tail (`append`) or at the head
followed by the `cleanQueue()` pass (`!append`). -/
def throttleAdmit (s : Bucket) (cost : Rat) (append isPause : Bool) (now : Rat) :
    ThrottleOutcome × Bucket × List BucketEvent :=
  let m := getCurrentMaxCapacity s now
  if append ∧ m.1 < m.2.totalCost + cost then
    (ThrottleOutcome.overflow, m.2, [])
  else
    let item : QueueItem := ⟨m.2.nextId, cost, isPause⟩
    let s2 := { m.2 with totalCost := m.2.totalCost + cost, nextId := m.2.nextId + 1 }
    if append then
      (ThrottleOutcome.queued item.id, { s2 with queue := s2.queue ++ [item] }, [])
    else
      let c := cleanQueue { s2 with queue := item :: s2.queue } now
      (ThrottleOutcome.queued item.id, c.1, c.2)

/-- Throttle mirrors the full `throttle(cost, append, isPause)` (LeakyBucket.ts
lines 72-106): the admission stage followed, when an item was queued, by the
`startTimer()` scheduler trigger. -/
def throttle (s : Bucket) (cost : Rat) (append isPause : Bool) (now : Rat) :
    ThrottleOutcome × Bucket × List BucketEvent :=
  let a := throttleAdmit s cost append isPause now
  match a.1 with
  | ThrottleOutcome.overflow => a
  | ThrottleOutcome.queued i =>
    let r := startTimer a.2.1 now
    (ThrottleOutcome.queued i, r.1, a.2.2 ++ r.2)

/-- PauseByCost mirrors `pauseByCost(cost)`: stop the timer, then
`throttle(cost, append = false, isPause = true)`. -/
def pauseByCost (s : Bucket) (cost : Rat) (now : Rat) :
    ThrottleOutcome × Bucket × List BucketEvent :=
  throttle (stopTimer s) cost false true now

/-- Pause mirrors `pause(millis = 1000)` of src/unnamed/part_001 (lines
230-235): `drain()`, `stopTimer()`, then `pauseByCost(refillRatePerSecond *
(millis / 1000))`.  The older variant src/src/leaky-bucket/LeakyBucket.ts
takes the argument in seconds (`cost = refillRate * seconds`); the claims and
spec use the milliseconds form, which is the one embedded here. -/
def pause (s : Bucket) (millis : Rat) (now : Rat) :
    ThrottleOutcome × Bucket × List BucketEvent :=
  let s1 := drain s now
  let s2 := stopTimer s1
  let cost := s2.refillRate * (millis / 1000)
  pauseByCost s2 cost now

theorem refill_full (s : Bucket) (now : Rat) (h : s.capacity ≤ s.currentCapacity) :
    refill s now = s := by
  unfold refill
  rw [if_neg (not_lt.mpr h)]

theorem refill_zero_elapsed (s : Bucket) (h : s.currentCapacity < s.capacity) :
    refill s s.lastRefill = s := by
  unfold refill
  rw [if_pos h]
  dsimp only
  rw [if_neg (by simp only [sub_self, zero_div, zero_mul, add_zero]; exact not_le.mpr h)]
  simp only [sub_self, zero_div, zero_mul, add_zero]

theorem refill_drained (s : Bucket) (now : Rat) (h0 : s.currentCapacity = 0)
    (h1 : s.lastRefill = now) (hc : 0 < s.capacity) : refill s now = s := by
  have h : s.currentCapacity < s.capacity := by rw [h0]; exact hc
  calc refill s now = refill s s.lastRefill := by rw [h1]
    _ = s := refill_zero_elapsed s h

/-- C1: after construction with capacity `c`, `intervalMillis` `i` and
`additionalTimeoutMillis` `a` (default 0), the derived values satisfy
`refillRatePerSecond = c / i * 1000` and `maxCapacity = c * (i + a) / i`;
with `a` omitted (0) `maxCapacity = c`, and for
`c = 120, i = 60000, a = 240000` one gets `maxCapacity = 600` and
`refillRatePerSecond = 2`. -/
theorem calc_derived_values :
    (∀ c i a : Rat, i ≠ 0 →
      (calcMaxCapacityAndRefillRate c i a).1 = c * (i + a) / i
      ∧ (calcMaxCapacityAndRefillRate c i a).2 = c / i * 1000
      ∧ (calcMaxCapacityAndRefillRate c i 0).1 = c)
    ∧ calcMaxCapacityAndRefillRate 120 60000 240000 = (600, 2) := by
  constructor
  · intro c i a hi
    refine ⟨rfl, rfl, ?_⟩
    show c * (i + 0) / i = c
    rw [add_zero, mul_div_assoc, div_self hi, mul_one]
  · norm_num [calcMaxCapacityAndRefillRate, Prod.ext_iff]

theorem calc_derived_values_witness :
    (calcMaxCapacityAndRefillRate 2 4 0).1 = 2 :=
  (calc_derived_values.1 2 4 0 (by norm_num)).2.2

/-- C6 counterexample: in a state whose `lastRefill` timestamp is the unset 0
sentinel but whose `currentCapacity` (30) is below `capacity` (60), `refill`
at `now = 4000` does not treat the unset timestamp as "no elapsed time": it
computes the elapsed time from epoch 0 and adds `4000 / 1000 * 1 = 4` units,
moving `currentCapacity` to 34 instead of leaving it at 30. -/
theorem refill_unset_timestamp_counterexample :
    (refill { capacity := 60, maxCapacity := 60, refillRate := 1, queue := [],
              totalCost := 0, currentCapacity := 30, lastRefill := 0, timer := none,
              emptyGen := 1, emptyResolver := true, nextId := 0 } 4000).currentCapacity = 34
    ∧ (refill { capacity := 60, maxCapacity := 60, refillRate := 1, queue := [],
                totalCost := 0, currentCapacity := 30, lastRefill := 0, timer := none,
                emptyGen := 1, emptyResolver := true, nextId := 0 } 4000).currentCapacity
        ≠ 30 := by
  constructor
  · norm_num [refill]
  · norm_num [refill]

/-- C6 (amended): `refill()` is a no-op when `currentCapacity ≥ capacity` or
when zero time has elapsed (`now = lastRefill`); otherwise it adds
`(now - lastRefill) / 1000 * refillRatePerSecond` to `currentCapacity`
clamped to `capacity`, clearing `lastRefill` to the unset 0 sentinel when the
clamp triggers and setting it to `now` otherwise.  The elapsed time is always
measured from the stored timestamp, so an unset (0) timestamp yields an
elapsed time of `now - 0` rather than zero. -/
theorem refill_characterization :
    ∀ (s : Bucket) (now : Rat),
    (s.capacity ≤ s.currentCapacity → refill s now = s)
    ∧ (s.currentCapacity < s.capacity → now = s.lastRefill → refill s now = s)
    ∧ (s.currentCapacity < s.capacity →
        s.capacity ≤ s.currentCapacity + (now - s.lastRefill) / 1000 * s.refillRate →
        refill s now = { s with currentCapacity := s.capacity, lastRefill := 0 })
    ∧ (s.currentCapacity < s.capacity →
        s.currentCapacity + (now - s.lastRefill) / 1000 * s.refillRate < s.capacity →
        refill s now
          = { s with
                currentCapacity :=
                  s.currentCapacity + (now - s.lastRefill) / 1000 * s.refillRate,
                lastRefill := now }) := by
  intro s now
  refine ⟨refill_full s now, ?_, ?_, ?_⟩
  · intro h h2
    rw [h2]
    exact refill_zero_elapsed s h
  · intro h h2
    unfold refill
    rw [if_pos h]
    dsimp only
    rw [if_pos h2]
  · intro h h2
    unfold refill
    rw [if_pos h]
    dsimp only
    rw [if_neg (not_le.mpr h2)]

theorem refill_characterization_witness :
    refill { capacity := 60, maxCapacity := 60, refillRate := 1, queue := [],
             totalCost := 0, currentCapacity := 30, lastRefill := 0, timer := none,
             emptyGen := 1, emptyResolver := true, nextId := 0 } 4000
      = { { capacity := 60, maxCapacity := 60, refillRate := 1, queue := [],
            totalCost := 0, currentCapacity := 30, lastRefill := 0, timer := none,
            emptyGen := 1, emptyResolver := true, nextId := 0 : Bucket } with
          currentCapacity := 30 + (4000 - 0) / 1000 * 1, lastRefill := 4000 } :=
  (refill_characterization
    { capacity := 60, maxCapacity := 60, refillRate := 1, queue := [],
      totalCost := 0, currentCapacity := 30, lastRefill := 0, timer := none,
      emptyGen := 1, emptyResolver := true, nextId := 0 } 4000).2.2.2
    (by norm_num) (by norm_num)

/-- C9: the scheduler's `startTimer()` is an idempotent no-op whenever a
timer is already pending or the queue is empty; in particular with no timer
outstanding and an empty queue it leaves the entire state unchanged and emits
no events.  At most one timer is ever outstanding by construction: the state
holds a single `Option`-typed timer slot, exactly like the source's single
`timer` field. -/
theorem startTimer_noop :
    ∀ (s : Bucket) (now : Rat),
    (s.timer ≠ none → startTimer s now = (s, []))
    ∧ (s.queue = [] → startTimer s now = (s, [])) := by
  intro s now
  constructor
  · intro h
    unfold startTimer startTimerFuel
    rw [if_neg]
    rintro ⟨h1, _⟩
    exact h h1
  · intro h
    unfold startTimer startTimerFuel
    rw [if_neg]
    rintro ⟨_, h2⟩
    rw [h] at h2
    simp at h2

theorem startTimer_noop_witness :
    startTimer { mkBucket 100 600 2 with timer := some 5 } 0
      = ({ mkBucket 100 600 2 with timer := some 5 }, []) :=
  (startTimer_noop { mkBucket 100 600 2 with timer := some 5 } 0).1 (by simp [mkBucket])

/-- C10: `pay(cost)` never updates the last-refill timestamp (its guard
compares the always-numeric `lastRefill` against `null`, which is statically
false), so paying a fully recharged bucket (the 0 sentinel in `lastRefill`,
`currentCapacity = capacity`) below capacity makes the next `refill` compute
its elapsed time from timestamp 0; whenever that huge pseudo-elapsed refill
covers the paid cost (`c ≤ now / 1000 * refillRate`, true for any realistic
clock value), `refill` immediately clamps `currentCapacity` back to full
capacity regardless of the actual time elapsed since the `pay`. -/
theorem pay_never_updates_lastRefill :
    ∀ (s t : Bucket) (c d now : Rat),
    (pay t d).lastRefill = t.lastRefill
    ∧ (s.lastRefill = 0 → s.currentCapacity = s.capacity → 0 < c →
        c ≤ now / 1000 * s.refillRate →
        (refill (pay s c) now).currentCapacity = s.capacity
        ∧ (refill (pay s c) now).lastRefill = 0) := by
  intro s t c d now
  refine ⟨rfl, ?_⟩
  intro h0 hfull hc hrate
  unfold pay refill
  dsimp only
  rw [hfull, h0]
  rw [if_pos (by linarith)]
  rw [if_pos (by rw [sub_zero]; linarith)]
  exact ⟨rfl, rfl⟩

theorem pay_never_updates_lastRefill_witness :
    (refill (pay (mkBucket 100 600 2) 30) 60000).currentCapacity
        = (mkBucket 100 600 2).capacity
    ∧ (refill (pay (mkBucket 100 600 2) 30) 60000).lastRefill = 0 :=
  (pay_never_updates_lastRefill (mkBucket 100 600 2) (mkBucket 100 600 2) 30 0 60000).2
    rfl rfl (by norm_num) (by norm_num [mkBucket])

theorem getCurrentMaxCapacity_snd (s : Bucket) (now : Rat) :
    (getCurrentMaxCapacity s now).2 = refill s now := rfl

/-- C8: `awaitEmpty()` resolves once the queue is empty: it fires immediately
when the queue is already empty at call time; the scheduler's removal step
(`shiftQueue`) fires the signal when the queue transitions to empty while a
resolver exists, clearing the resolver; and after a firing the next
`awaitEmpty()` call made while the queue is non-empty creates a fresh
(strictly newer generation) unfired signal instead of resolving early. -/
theorem awaitEmpty_signal :
    ∀ s : Bucket,
    (s.queue = [] →
      (awaitEmpty s).2.1 = [BucketEvent.emptyFired (awaitEmpty s).2.2]
      ∧ (awaitEmpty s).1.emptyResolver = false)
    ∧ (s.queue.tail = [] → s.emptyResolver = true →
      (shiftQueue s).2 = [BucketEvent.emptyFired s.emptyGen]
      ∧ (shiftQueue s).1.emptyResolver = false)
    ∧ (s.emptyResolver = false → s.queue ≠ [] →
      (awaitEmpty s).2.1 = [] ∧ (awaitEmpty s).2.2 = s.emptyGen + 1
      ∧ (awaitEmpty s).1.emptyResolver = true) := by
  intro s
  refine ⟨?_, ?_, ?_⟩
  · intro h
    cases hr : s.emptyResolver <;>
      simp [awaitEmpty, maybeCreateEmptyPromiseResolver, h, hr]
  · intro h1 h2
    simp [shiftQueue, h1, h2]
  · intro h1 h2
    simp [awaitEmpty, maybeCreateEmptyPromiseResolver, h1, h2]

theorem awaitEmpty_signal_witness :
    (awaitEmpty (mkBucket 100 600 2)).2.1
        = [BucketEvent.emptyFired (awaitEmpty (mkBucket 100 600 2)).2.2]
    ∧ (awaitEmpty (mkBucket 100 600 2)).1.emptyResolver = false :=
  (awaitEmpty_signal (mkBucket 100 600 2)).1 rfl

/-- C2: a `throttle(cost, append = true, isPause)` call in a state where
`totalCost + cost` exceeds `maxCapacity - (capacity - currentCapacity)`
(computed after a refill by `getCurrentMaxCapacity`) fails with the Overflow
rejection, enqueues nothing and leaves `totalCost` unchanged; otherwise the
admission stage of the call appends the item to the queue and increases
`totalCost` by exactly `cost`. -/
theorem throttle_append_overflow :
    ∀ (s : Bucket) (cost : Rat) (isPause : Bool) (now : Rat),
    ((getCurrentMaxCapacity s now).1 < s.totalCost + cost →
      (throttle s cost true isPause now).1 = ThrottleOutcome.overflow
      ∧ (throttle s cost true isPause now).2.1.queue = s.queue
      ∧ (throttle s cost true isPause now).2.1.totalCost = s.totalCost)
    ∧ (s.totalCost + cost ≤ (getCurrentMaxCapacity s now).1 →
      (throttleAdmit s cost true isPause now).1 = ThrottleOutcome.queued s.nextId
      ∧ (throttleAdmit s cost true isPause now).2.1.queue
          = s.queue ++ [⟨s.nextId, cost, isPause⟩]
      ∧ (throttleAdmit s cost true isPause now).2.1.totalCost
          = s.totalCost + cost) := by
  intro s cost isPause now
  constructor
  · intro h
    unfold throttle throttleAdmit
    dsimp only
    rw [if_pos ⟨rfl, by rw [getCurrentMaxCapacity_snd, refill_totalCost]; exact h⟩]
    exact ⟨rfl,
      by rw [getCurrentMaxCapacity_snd, refill_queue],
      by rw [getCurrentMaxCapacity_snd, refill_totalCost]⟩
  · intro h
    unfold throttleAdmit
    dsimp only
    rw [if_neg]
    · rw [if_pos rfl]
      refine ⟨?_, ?_, ?_⟩
      · rw [getCurrentMaxCapacity_snd, refill_nextId]
      · rw [getCurrentMaxCapacity_snd, refill_queue, refill_nextId]
      · rw [getCurrentMaxCapacity_snd, refill_totalCost]
    · rintro ⟨_, h2⟩
      rw [getCurrentMaxCapacity_snd, refill_totalCost] at h2
      exact absurd h2 (not_lt.mpr h)

theorem throttle_append_overflow_witness :
    (throttle (mkBucket 100 600 2) 700 true false 0).1 = ThrottleOutcome.overflow
    ∧ (throttle (mkBucket 100 600 2) 700 true false 0).2.1.queue
        = (mkBucket 100 600 2).queue
    ∧ (throttle (mkBucket 100 600 2) 700 true false 0).2.1.totalCost
        = (mkBucket 100 600 2).totalCost :=
  (throttle_append_overflow (mkBucket 100 600 2) 700 false 0).1
    (by norm_num [getCurrentMaxCapacity, refill, mkBucket])

theorem pay_totalCost (s : Bucket) (c : Rat) : (pay s c).totalCost = s.totalCost - c := rfl

theorem shiftQueue_fst_totalCost (s : Bucket) :
    (shiftQueue s).1.totalCost = s.totalCost := by
  unfold shiftQueue
  dsimp only
  split <;> rfl

theorem startTimer_arm (s : Bucket) (now : Rat) (item : QueueItem)
    (rest : List QueueItem) (hq : s.queue = item :: rest) (ht : s.timer = none)
    (hng : ¬(item.cost ≠ 0 ∧ item.cost ≤ (refill s now).currentCapacity)) :
    startTimer s now
      = ({ refill s now with
            timer := some ((item.cost + (refill s now).currentCapacity * (-1))
                            / (refill s now).refillRate * 1000) }, []) := by
  unfold startTimer
  rw [hq, List.length_cons]
  unfold startTimerFuel
  rw [if_pos ⟨ht, by rw [hq]; simp⟩]
  have hf : getFirstItem s = some item := by rw [getFirstItem, hq]; rfl
  rw [hf]
  dsimp only
  rw [if_neg hng]

/-- C3: evaluation of `cleanQueue` at a state with available queue budget 10
and queue `[a(cost 8), p(cost 5, pause), b(cost 1)]`: the accumulated cost
exceeds the budget at `p`, and the splice removes both `p` and `b` from the
queue; the non-pause item `b` is rejected and its cost subtracted from
`totalCost` (14 → 13), but the pause item `p` is also evicted from the queue
— silently, with neither a rejection event nor a cost subtraction —
contradicting the claim (and the source's own doc comment for `isPause`) that
pause items are never cleaned off of the queue. -/
theorem cleanQueue_evicts_pause_item :
    (cleanQueue { capacity := 100, maxCapacity := 110, refillRate := 2,
                  queue := [⟨1, 8, false⟩, ⟨2, 5, true⟩, ⟨3, 1, false⟩],
                  totalCost := 14, currentCapacity := 0, lastRefill := 0,
                  timer := none, emptyGen := 1, emptyResolver := true,
                  nextId := 4 } 0).1.queue = [⟨1, 8, false⟩]
    ∧ QueueItem.mk 2 5 true
        ∉ (cleanQueue { capacity := 100, maxCapacity := 110, refillRate := 2,
                        queue := [⟨1, 8, false⟩, ⟨2, 5, true⟩, ⟨3, 1, false⟩],
                        totalCost := 14, currentCapacity := 0, lastRefill := 0,
                        timer := none, emptyGen := 1, emptyResolver := true,
                        nextId := 4 } 0).1.queue
    ∧ (cleanQueue { capacity := 100, maxCapacity := 110, refillRate := 2,
                    queue := [⟨1, 8, false⟩, ⟨2, 5, true⟩, ⟨3, 1, false⟩],
                    totalCost := 14, currentCapacity := 0, lastRefill := 0,
                    timer := none, emptyGen := 1, emptyResolver := true,
                    nextId := 4 } 0).2 = [BucketEvent.rejected 3]
    ∧ (cleanQueue { capacity := 100, maxCapacity := 110, refillRate := 2,
                    queue := [⟨1, 8, false⟩, ⟨2, 5, true⟩, ⟨3, 1, false⟩],
                    totalCost := 14, currentCapacity := 0, lastRefill := 0,
                    timer := none, emptyGen := 1, emptyResolver := true,
                    nextId := 4 } 0).1.totalCost = 13 := by
  norm_num [cleanQueue, getCurrentMaxCapacity, refill, cleanSplit, sumCosts]

/-- C5: evaluation of the scheduler at a state whose head item has cost 0
while `currentCapacity = 50 ≥ 0`: the claim says the head is granted exactly
when `currentCapacity >= head.cost` after refilling, but the source guard
`item?.cost && this.currentCapacity >= item.cost` is falsy for a zero cost,
so no grant happens — the item stays queued, no event is emitted, and the
timer is re-armed with the nonsensical delay
`(0 - 50) / 2 * 1000 = -25000` ms. -/
theorem startTimer_zero_cost_not_granted :
    (startTimer { capacity := 100, maxCapacity := 600, refillRate := 2,
                  queue := [⟨0, 0, false⟩], totalCost := 0, currentCapacity := 50,
                  lastRefill := 0, timer := none, emptyGen := 1,
                  emptyResolver := true, nextId := 1 } 0).2 = []
    ∧ (startTimer { capacity := 100, maxCapacity := 600, refillRate := 2,
                    queue := [⟨0, 0, false⟩], totalCost := 0, currentCapacity := 50,
                    lastRefill := 0, timer := none, emptyGen := 1,
                    emptyResolver := true, nextId := 1 } 0).1.queue = [⟨0, 0, false⟩]
    ∧ (startTimer { capacity := 100, maxCapacity := 600, refillRate := 2,
                    queue := [⟨0, 0, false⟩], totalCost := 0, currentCapacity := 50,
                    lastRefill := 0, timer := none, emptyGen := 1,
                    emptyResolver := true, nextId := 1 } 0).1.timer = some (-25000) := by
  have h := startTimer_arm
    { capacity := 100, maxCapacity := 600, refillRate := 2,
      queue := [⟨0, 0, false⟩], totalCost := 0, currentCapacity := 50,
      lastRefill := 0, timer := none, emptyGen := 1,
      emptyResolver := true, nextId := 1 } 0 ⟨0, 0, false⟩ [] rfl rfl (by norm_num)
  rw [h]
  norm_num [refill]

theorem sumCosts_cons (it : QueueItem) (l : List QueueItem) :
    sumCosts (it :: l) = it.cost + sumCosts l := by
  simp [sumCosts]

theorem sumCosts_append (a b : List QueueItem) :
    sumCosts (a ++ b) = sumCosts a + sumCosts b := by
  simp [sumCosts]

theorem cleanSplit_append (l : List QueueItem) :
    ∀ acc m : Rat, (cleanSplit l acc m).1 ++ (cleanSplit l acc m).2 = l := by
  induction l with
  | nil => intro acc m; simp [cleanSplit]
  | cons it rest ih =>
    intro acc m
    unfold cleanSplit
    split
    · simp
    · dsimp only
      rw [List.cons_append, ih]

theorem sumCosts_filter_pause (l : List QueueItem) :
    sumCosts (l.filter fun it => it.isPause)
      + sumCosts (l.filter fun it => !it.isPause) = sumCosts l := by
  induction l with
  | nil => simp [sumCosts]
  | cons it rest ih =>
    cases hp : it.isPause <;>
      simp only [List.filter_cons, hp, Bool.not_true, Bool.not_false, ite_true, ite_false,
        Bool.false_eq_true, Bool.true_eq_false, sumCosts_cons] <;>
      linarith [ih]

/-- C4 counterexample: construct a reachable state by appending a cost-150
item (it cannot burst against capacity 100, so it stays queued, nothing is
granted and `totalCost = 150`), then run `stopTimerAndClearQueue`: the queue
is emptied but `totalCost` remains 150, even though the queue sum is 0 and no
item was ever granted (no `granted` event was emitted), so `totalQueuedCost`
does not equal the queue sum plus any granted-but-unpaid balance. -/
theorem clearQueue_breaks_totalCost_invariant :
    (throttle (mkBucket 100 600 2) 150 true false 0).2.2 = []
    ∧ (stopTimerAndClearQueue (throttle (mkBucket 100 600 2) 150 true false 0).2.1).queue
        = []
    ∧ (stopTimerAndClearQueue
          (throttle (mkBucket 100 600 2) 150 true false 0).2.1).totalCost = 150 := by
  have hadm : throttleAdmit (mkBucket 100 600 2) 150 true false 0
      = (ThrottleOutcome.queued 0,
         { capacity := 100, maxCapacity := 600, refillRate := 2,
           queue := [⟨0, 150, false⟩], totalCost := 150, currentCapacity := 100,
           lastRefill := 0, timer := none, emptyGen := 1, emptyResolver := true,
           nextId := 1 }, []) := by
    norm_num [throttleAdmit, getCurrentMaxCapacity, refill, mkBucket]
  have harm := startTimer_arm
    { capacity := 100, maxCapacity := 600, refillRate := 2,
      queue := [⟨0, 150, false⟩], totalCost := 150, currentCapacity := 100,
      lastRefill := 0, timer := none, emptyGen := 1, emptyResolver := true,
      nextId := 1 } 0 ⟨0, 150, false⟩ [] rfl rfl (by norm_num [refill])
  unfold throttle
  rw [hadm]
  dsimp only
  rw [harm]
  norm_num [stopTimerAndClearQueue, stopTimer, clearQueue, refill]

/-- C4 (amended): the grant step (`shiftQueue` followed by paying the head's
cost) and `cleanQueue`'s eviction of non-pause items preserve the difference
`totalCost - (sum of queued costs)`, so with only grants and non-pause
evictions `totalQueuedCost` stays equal to the queue sum plus the
pre-existing balance; however `cleanQueue` increases that difference by
exactly the summed cost of the pause items it evicts, and
`stopTimerAndClearQueue` empties the queue while leaving `totalCost`
unchanged (the discarded items' cost is never subtracted). -/
theorem totalCost_accounting :
    (∀ (s : Bucket) (h : s.queue ≠ []),
      (pay (shiftQueue s).1 (s.queue.head h).cost).totalCost
          - sumCosts (pay (shiftQueue s).1 (s.queue.head h).cost).queue
        = s.totalCost - sumCosts s.queue)
    ∧ (∀ (s : Bucket) (now : Rat),
      (cleanQueue s now).1.totalCost - sumCosts (cleanQueue s now).1.queue
        = s.totalCost - sumCosts s.queue
          + sumCosts
              ((cleanSplit s.queue 0 ((getCurrentMaxCapacity s now).1)).2.filter
                (fun it => it.isPause)))
    ∧ (∀ s : Bucket,
      (stopTimerAndClearQueue s).queue = []
      ∧ (stopTimerAndClearQueue s).totalCost = s.totalCost) := by
  refine ⟨?_, ?_, fun s => ⟨rfl, rfl⟩⟩
  · intro s h
    obtain ⟨hd, tl, hq⟩ := List.exists_cons_of_ne_nil h
    have hh : s.queue.head h = hd := by simp [hq]
    rw [hh]
    simp only [pay_totalCost, pay_queue, shiftQueue_fst_totalCost, shiftQueue_fst_queue,
      hq, List.tail_cons, sumCosts_cons]
    ring
  · intro s now
    unfold cleanQueue
    dsimp only
    rw [getCurrentMaxCapacity_snd, refill_queue, refill_totalCost]
    have h1 : sumCosts ((cleanSplit s.queue 0 ((getCurrentMaxCapacity s now).1)).1)
        + sumCosts ((cleanSplit s.queue 0 ((getCurrentMaxCapacity s now).1)).2)
        = sumCosts s.queue := by
      rw [← sumCosts_append, cleanSplit_append]
    have h2 := sumCosts_filter_pause
      ((cleanSplit s.queue 0 ((getCurrentMaxCapacity s now).1)).2)
    linarith

theorem totalCost_accounting_witness :
    (pay (shiftQueue { mkBucket 100 600 2 with
                        queue := [⟨0, 5, false⟩], totalCost := 5 }).1
        (({ mkBucket 100 600 2 with
            queue := [⟨0, 5, false⟩], totalCost := 5 : Bucket }.queue.head
            (by simp)).cost)).totalCost
        - sumCosts
            (pay (shiftQueue { mkBucket 100 600 2 with
                                queue := [⟨0, 5, false⟩], totalCost := 5 }).1
              (({ mkBucket 100 600 2 with
                  queue := [⟨0, 5, false⟩], totalCost := 5 : Bucket }.queue.head
                  (by simp)).cost)).queue
      = ({ mkBucket 100 600 2 with
            queue := [⟨0, 5, false⟩], totalCost := 5 : Bucket }).totalCost
        - sumCosts ({ mkBucket 100 600 2 with
                      queue := [⟨0, 5, false⟩], totalCost := 5 : Bucket }).queue :=
  totalCost_accounting.1
    { mkBucket 100 600 2 with queue := [⟨0, 5, false⟩], totalCost := 5 } (by simp)
theorem throttle_head_drained (s : Bucket) (cost now : Rat)
    (hcc : s.currentCapacity = 0) (hlr : s.lastRefill = now) (htm : s.timer = none)
    (hcap : 0 < s.capacity) (hcost : 0 < cost)
    (hbudget : cost ≤ s.maxCapacity - s.capacity) :
    (throttle s cost false true now).2.1.currentCapacity = 0
    ∧ (throttle s cost false true now).2.1.timer = some (cost / s.refillRate * 1000)
    ∧ (throttle s cost false true now).2.1.queue.head? = some ⟨s.nextId, cost, true⟩ := by
  obtain ⟨cap, maxc, rate, q, tc, cc, lr, tm, eg, er, ni⟩ := s
  dsimp only at hcc hlr htm hcap hbudget ⊢
  subst hcc hlr htm
  unfold throttle throttleAdmit getCurrentMaxCapacity
  rw [refill_drained ⟨cap, maxc, rate, q, tc, 0, lr, none, eg, er, ni⟩ lr rfl rfl hcap]
  dsimp only
  rw [if_neg (by simp)]
  unfold cleanQueue getCurrentMaxCapacity
  rw [refill_drained ⟨cap, maxc, rate, ⟨ni, cost, true⟩ :: q, tc + cost, 0, lr, none, eg, er,
        ni + 1⟩ lr rfl rfl hcap]
  dsimp only
  simp only [Bool.false_eq_true, if_false]
  have hsplit : cleanSplit (⟨ni, cost, true⟩ :: q) 0 (maxc - (cap - 0))
      = (QueueItem.mk ni cost true :: (cleanSplit q (0 + cost) (maxc - (cap - 0))).1,
         (cleanSplit q (0 + cost) (maxc - (cap - 0))).2) := by
    rw [cleanSplit, if_neg]
    dsimp only
    simp only [sub_zero, zero_add]
    exact not_lt.mpr hbudget
  rw [hsplit]
  dsimp only
  generalize hK : (cleanSplit q (0 + cost) (maxc - (cap - 0))).1 = K
  generalize hR :
    sumCosts (List.filter (fun it => !it.isPause) (cleanSplit q (0 + cost) (maxc - (cap - 0))).2) = R
  have hng : ¬((QueueItem.mk ni cost true).cost ≠ 0
      ∧ (QueueItem.mk ni cost true).cost
          ≤ (refill ⟨cap, maxc, rate, QueueItem.mk ni cost true :: K,
                tc + cost - R, 0, lr, none, eg, er, ni + 1⟩ lr).currentCapacity) := by
    rw [refill_drained ⟨cap, maxc, rate, QueueItem.mk ni cost true :: K,
      tc + cost - R, 0, lr, none, eg, er, ni + 1⟩ lr rfl rfl hcap]
    rintro ⟨h5, h6⟩
    exact absurd h6 (not_le.mpr hcost)
  rw [startTimer_arm ⟨cap, maxc, rate, QueueItem.mk ni cost true :: K,
        tc + cost - R, 0, lr, none, eg, er, ni + 1⟩ lr (QueueItem.mk ni cost true) K rfl rfl hng]
  rw [refill_drained ⟨cap, maxc, rate, QueueItem.mk ni cost true :: K,
        tc + cost - R, 0, lr, none, eg, er, ni + 1⟩ lr rfl rfl hcap]
  refine ⟨rfl, ?_, rfl⟩
  norm_num

theorem startTimer_nil (s : Bucket) (now : Rat) (h : s.queue = []) :
    startTimer s now = (s, []) := by
  unfold startTimer startTimerFuel
  rw [if_neg]
  rintro ⟨_, h2⟩
  rw [h] at h2
  simp at h2

theorem throttle_head_overbudget (s : Bucket) (cost now : Rat)
    (hcc : s.currentCapacity = 0) (hlr : s.lastRefill = now) (htm : s.timer = none)
    (hcap : 0 < s.capacity)
    (hbudget : s.maxCapacity - s.capacity < cost) :
    (throttle s cost false true now).2.1.queue = []
    ∧ (throttle s cost false true now).2.1.timer = none := by
  obtain ⟨cap, maxc, rate, q, tc, cc, lr, tm, eg, er, ni⟩ := s
  dsimp only at hcc hlr htm hcap hbudget ⊢
  subst hcc hlr htm
  unfold throttle throttleAdmit getCurrentMaxCapacity
  rw [refill_drained ⟨cap, maxc, rate, q, tc, 0, lr, none, eg, er, ni⟩ lr rfl rfl hcap]
  dsimp only
  rw [if_neg (by simp)]
  unfold cleanQueue getCurrentMaxCapacity
  rw [refill_drained ⟨cap, maxc, rate, ⟨ni, cost, true⟩ :: q, tc + cost, 0, lr, none, eg, er,
        ni + 1⟩ lr rfl rfl hcap]
  dsimp only
  simp only [Bool.false_eq_true, if_false]
  have hsplit : cleanSplit (⟨ni, cost, true⟩ :: q) 0 (maxc - (cap - 0))
      = ([], QueueItem.mk ni cost true :: q) := by
    rw [cleanSplit, if_pos]
    dsimp only
    simp only [sub_zero, zero_add]
    exact hbudget
  rw [hsplit]
  dsimp only
  generalize hR :
    sumCosts (List.filter (fun it => !it.isPause) (QueueItem.mk ni cost true :: q)) = R
  rw [startTimer_nil ⟨cap, maxc, rate, [], tc + cost - R, 0, lr, none, eg, er, ni + 1⟩ lr rfl]
  exact ⟨rfl, rfl⟩

/-- C7 counterexample: with `additionalTimeoutMillis` omitted the derived
values are `maxCapacity = capacity` (`calcMaxCapacityAndRefillRate 120 60000 0
= (120, 2)`); on such a bucket `pause(1000)` does not leave a pause item at
the head of the queue and arms no timer: the post-drain queue budget is
`maxCapacity - capacity = 0`, so the cleanup pass splices the freshly
inserted pause item straight back off, the queue ends empty, and nothing is
delayed by approximately 1000 ms — refuting the claim as stated for this
`millis`. -/
theorem pause_self_evicts_counterexample :
    (pause (mkBucket 120 120 2) 1000 0).2.1.queue = []
    ∧ (pause (mkBucket 120 120 2) 1000 0).2.1.timer = none
    ∧ calcMaxCapacityAndRefillRate 120 60000 0 = (120, 2) := by
  have h := throttle_head_overbudget
    { mkBucket 120 120 2 with currentCapacity := 0, lastRefill := 0, timer := none }
    ((mkBucket 120 120 2).refillRate * (1000 / 1000)) 0 rfl rfl rfl
    (by norm_num [mkBucket]) (by norm_num [mkBucket])
  exact ⟨h.1, h.2, by norm_num [calcMaxCapacityAndRefillRate, Prod.ext_iff]⟩

/-- C7 (amended): for every positive `millis` (with positive capacity and
refill rate), `pause(millis)` first drains `currentCapacity` to 0 and cancels
any pending timer, then head-inserts a pause item whose cost is
`refillRatePerSecond * millis / 1000` — exactly the capacity that would
naturally refill during `millis`.  When that cost fits the post-drain queue
budget `maxCapacity - capacity`, the pause item stays at the head and the
scheduler arms its wake-up timer with a delay of exactly `millis`, so the
next grantable item is delayed by approximately `millis`; but when the cost
exceeds that budget, the cleanup pass immediately splices the freshly
inserted pause item (and everything behind it) off the queue, leaving an
empty queue and no armed timer, so no stall is installed at all — in
particular with `additionalTimeoutMillis` omitted (`maxCapacity = capacity`)
every positive-`millis` pause self-evicts. -/
theorem pause_inserts_head_pause_item :
    ∀ (s : Bucket) (millis now : Rat),
    0 < s.capacity → 0 < s.refillRate → 0 < millis →
    (s.refillRate * (millis / 1000) ≤ s.maxCapacity - s.capacity →
      (pause s millis now).2.1.currentCapacity = 0
      ∧ (pause s millis now).2.1.timer = some millis
      ∧ (pause s millis now).2.1.queue.head?
          = some ⟨s.nextId, s.refillRate * (millis / 1000), true⟩)
    ∧ (s.maxCapacity - s.capacity < s.refillRate * (millis / 1000) →
      (pause s millis now).2.1.queue = []
      ∧ (pause s millis now).2.1.timer = none) := by
  intro s millis now h1 h2 h3
  have hr0 : s.refillRate ≠ 0 := ne_of_gt h2
  have hcost : 0 < s.refillRate * (millis / 1000) := by positivity
  constructor
  · intro h4
    have h := throttle_head_drained
      { s with currentCapacity := 0, lastRefill := now, timer := none }
      (s.refillRate * (millis / 1000)) now rfl rfl rfl h1 hcost h4
    refine ⟨h.1, ?_, h.2.2⟩
    rw [show (pause s millis now).2.1.timer
        = some (s.refillRate * (millis / 1000) / s.refillRate * 1000) from h.2.1]
    congr 1
    rw [mul_comm s.refillRate (millis / 1000), mul_div_assoc, div_self hr0, mul_one,
      div_mul_cancel₀ millis (by norm_num : (1000:ℚ) ≠ 0)]
  · intro h4
    exact throttle_head_overbudget
      { s with currentCapacity := 0, lastRefill := now, timer := none }
      (s.refillRate * (millis / 1000)) now rfl rfl rfl h1 h4

theorem pause_inserts_head_pause_item_witness :
    (pause (mkBucket 120 600 2) 500 77).2.1.currentCapacity = 0
    ∧ (pause (mkBucket 120 600 2) 500 77).2.1.timer = some 500
    ∧ (pause (mkBucket 120 600 2) 500 77).2.1.queue.head?
        = some ⟨(mkBucket 120 600 2).nextId,
                (mkBucket 120 600 2).refillRate * (500 / 1000), true⟩ :=
  (pause_inserts_head_pause_item (mkBucket 120 600 2) 500 77
    (by norm_num [mkBucket]) (by norm_num [mkBucket]) (by norm_num)).1
    (by norm_num [mkBucket])
